import Mathlib

/-
  Verification of the Transfer-Assist relay service (src/Server.js).

  The relay is a single Express route, POST /api/anthropic.  The handler
  destructures `model`, `max_tokens` and `messages` from the parsed JSON
  request body, applies JavaScript `||` defaulting to the first two, issues
  one call to `anthropic.messages.create`, and replies 200 with the upstream
  result or 500 with an error envelope.  The Anthropic client is built once
  at process start from `process.env.ANTHROPIC_API_KEY || <hardcoded key>`.

  The embedding below mirrors that source directly: JSON bodies are values
  of an inductive `Json` type, a missing object field is `Option.none`
  (JavaScript `undefined`), `||` is `jsOr` built on JavaScript truthiness,
  and the upstream client is an explicit function argument so that both the
  success and the error branch of the `try`/`catch` can be examined.  The
  handler additionally returns the list of upstream calls it issued, so
  that "exactly one outbound call" is a provable statement.
-/

namespace TransferAssist

/-- A JSON value, as delivered to the handler by `express.json()`.
    Numbers are modelled as integers: every numeric literal the claims
    touch (`1200`, `5`, `0`) is integral. -/
inductive Json where
  | null
  | bool (b : Bool)
  | num (n : Int)
  | str (s : String)
  | arr (elems : List Json)
  | obj (fields : List (String × Json))
deriving Repr

/-- Property lookup on a list of object members.  `JSON.parse` (which
    `express.json()` uses) keeps the last occurrence of a duplicated key,
    so the lookup prefers later members. -/
def lookupLast : List (String × Json) → String → Option Json
  | [], _ => none
  | (k, v) :: rest, key =>
      match lookupLast rest key with
      | some w => some w
      | none => if k = key then some v else none

/-- Property access `body.key`, as performed by the destructuring
    `const \x7b model, max_tokens, messages \x7d = req.body`.  A missing
    property, or a non-object body, yields `undefined`, i.e. `none`. -/
def Json.getField : Json → String → Option Json
  | .obj fields, key => lookupLast fields key
  | _, _ => none

/-- JavaScript truthiness of a possibly-`undefined` value: `undefined`,
    `null`, `false`, `0` and `""` are falsy; every other value the model
    can represent (including any array or object) is truthy. -/
def truthy : Option Json → Bool
  | none => false
  | some .null => false
  | some (.bool b) => b
  | some (.num n) => n != 0
  | some (.str s) => s != ""
  | some (.arr _) => true
  | some (.obj _) => true

/-- JavaScript `v || d` for a possibly-`undefined` left operand: the left
    value when it is truthy, otherwise the default. -/
def jsOr (v : Option Json) (d : Json) : Json :=
  if truthy v then v.getD d else d

/-- The default model identifier inlined at src/Server.js line 20. -/
def DEFAULT_MODEL : String := "claude-sonnet-4-5-20250929"

/-- The default token limit inlined at src/Server.js line 21. -/
def DEFAULT_MAX_TOKENS : Int := 1200

/-- The hardcoded fallback credential embedded at src/Server.js line 12. -/
def FALLBACK_API_KEY : String :=
  "sk-ant-REDACTED"

/-- The credential the Anthropic client is constructed with:
    `process.env.ANTHROPIC_API_KEY || '<hardcoded key>'`.  The environment
    variable is `none` when unset; `||` falls through to the hardcoded key
    whenever the variable is unset or holds the (falsy) empty string. -/
def resolveApiKey (env : Option String) : String :=
  match env with
  | some s => if s != "" then s else FALLBACK_API_KEY
  | none => FALLBACK_API_KEY

/-- The argument record of `anthropic.messages.create`.  `model` and
    `max_tokens` are always defined after `||` defaulting; `messages` is
    forwarded as destructured and may still be `undefined`. -/
structure CreateParams where
  model : Json
  max_tokens : Json
  messages : Option Json
deriving Repr

/-- Outcome of the awaited upstream call: a resolved JSON response, or a
    raised error carrying its `message` string. -/
inductive UpstreamResult where
  | ok (response : Json)
  | err (message : String)

/-- The reply the handler sends: `res.json(...)` with an HTTP status. -/
structure HttpResponse where
  status : Nat
  body : Json
deriving Repr

/-- The argument object built for `anthropic.messages.create` at
    src/Server.js lines 19-23: `model || 'claude-sonnet-4-5-20250929'`,
    `max_tokens || 1200`, and `messages` untouched. -/
def buildCreateParams (body : Json) : CreateParams :=
  { model := jsOr (body.getField "model") (.str DEFAULT_MODEL)
    max_tokens := jsOr (body.getField "max_tokens") (.num DEFAULT_MAX_TOKENS)
    messages := body.getField "messages" }

/-- The POST /api/anthropic handler (src/Server.js lines 15-30).  `create`
    stands for `anthropic.messages.create`; the second component of the
    result is the list of upstream calls the handler issued, in order.
    On success the handler replies `res.json(response)` (status 200); on a
    raised error it replies `res.status(500).json(\x7b error: error.message \x7d)`. -/
def handleAnthropicPost (body : Json) (create : CreateParams → UpstreamResult) :
    HttpResponse × List CreateParams :=
  let params := buildCreateParams body
  match create params with
  | .ok response => ({ status := 200, body := response }, [params])
  | .err message => ({ status := 500, body := .obj [("error", .str message)] }, [params])

/-- The messages array of the first concrete scenario:
    one user message with content "hi". -/
def hiMessages : Json :=
  .arr [.obj [("role", .str "user"), ("content", .str "hi")]]

/-- The first concrete scenario body: only a `messages` field. -/
def hiBody : Json := .obj [("messages", hiMessages)]

/-- The second concrete scenario body: model "x", max_tokens 5, empty
    messages array. -/
def explicitBody : Json :=
  .obj [("model", .str "x"), ("max_tokens", .num 5), ("messages", .arr [])]

/-- An upstream stub that always resolves with `null`. -/
def okCreate : CreateParams → UpstreamResult := fun _ => .ok .null

/-- An upstream stub that always raises an error reading "rate limited". -/
def rateLimitedCreate : CreateParams → UpstreamResult := fun _ => .err "rate limited"

/-- An upstream stub that raises only when called with `max_tokens` 0; it
    agrees with `okCreate` on every call the relay actually issues, since
    the relay never forwards a `max_tokens` of 0. -/
def okUnlessZeroTokens : CreateParams → UpstreamResult := fun p =>
  match p.max_tokens with
  | .num 0 => .err "zero tokens"
  | _ => .ok .null

/-- A body supplying both defaultable fields with falsy values. -/
def falsyBody : Json :=
  .obj [("model", .str ""), ("max_tokens", .num 0), ("messages", .arr [])]

/-- A body with no `messages` field at all. -/
def noMessagesBody : Json := .obj [("model", .str "m")]

/-- An upstream stub that raises the error the provider sends back when
    `messages` is absent. -/
def missingMessagesCreate : CreateParams → UpstreamResult :=
  fun _ => .err "messages: Field required"

/-- The handler issues its single upstream call with the `||`-defaulted
    params, whichever branch the `try`/`catch` then takes. -/
theorem handle_calls (body : Json) (create : CreateParams → UpstreamResult) :
    (handleAnthropicPost body create).2 = [buildCreateParams body] := by
  unfold handleAnthropicPost
  cases h : create (buildCreateParams body) <;> simp [h]

/-- Claim C1: for an inbound body carrying a `messages` field, each default
    applies independently: if `model` is omitted the outbound call uses the
    default model identifier "claude-sonnet-4-5-20250929", and if
    `max_tokens` is omitted the outbound call uses the default token limit
    1200; the supplied messages go through as-is in either case. -/
theorem missing_fields_use_defaults (body : Json)
    (create : CreateParams → UpstreamResult) (msgs : Json)
    (hmsg : body.getField "messages" = some msgs) :
    (body.getField "model" = none →
      (handleAnthropicPost body create).2.map CreateParams.model =
        [.str "claude-sonnet-4-5-20250929"]) ∧
    (body.getField "max_tokens" = none →
      (handleAnthropicPost body create).2.map CreateParams.max_tokens =
        [.num 1200]) ∧
    (handleAnthropicPost body create).2.map CreateParams.messages =
      [some msgs] := by
  refine ⟨?_, ?_, ?_⟩
  · intro hm
    rw [handle_calls]
    simp [buildCreateParams, jsOr, truthy, hm, DEFAULT_MODEL]
  · intro ht
    rw [handle_calls]
    simp [buildCreateParams, jsOr, truthy, ht, DEFAULT_MAX_TOKENS]
  · rw [handle_calls]
    simp [buildCreateParams, hmsg]

/-- Concrete scenario for C1: the body with only
    messages = [role user, content "hi"] omits both fields, so the outbound
    call carries exactly the defaulted triple. -/
theorem missing_fields_use_defaults_witness :
    (handleAnthropicPost hiBody okCreate).2.map CreateParams.model =
      [.str "claude-sonnet-4-5-20250929"] ∧
    (handleAnthropicPost hiBody okCreate).2.map CreateParams.max_tokens =
      [.num 1200] ∧
    (handleAnthropicPost hiBody okCreate).2.map CreateParams.messages =
      [some hiMessages] :=
  ⟨(missing_fields_use_defaults hiBody okCreate hiMessages rfl).1 rfl,
   (missing_fields_use_defaults hiBody okCreate hiMessages rfl).2.1 rfl,
   (missing_fields_use_defaults hiBody okCreate hiMessages rfl).2.2⟩

/-- Claim C2: whenever the upstream call raises, the reply has status 500
    and its body is the one-key object binding "error" to the raised
    error's message string. -/
theorem upstream_error_yields_500_envelope (body : Json)
    (create : CreateParams → UpstreamResult) (msg : String)
    (h : create (buildCreateParams body) = .err msg) :
    (handleAnthropicPost body create).1 =
      { status := 500, body := .obj [("error", .str msg)] } := by
  simp [handleAnthropicPost, h]

/-- Concrete scenario for C2: an upstream error reading "rate limited"
    yields status 500 and the envelope binding "error" to "rate limited". -/
theorem upstream_error_yields_500_envelope_witness :
    (handleAnthropicPost hiBody rateLimitedCreate).1 =
      { status := 500, body := .obj [("error", .str "rate limited")] } :=
  upstream_error_yields_500_envelope hiBody rateLimitedCreate "rate limited" rfl

/-- Claim C3: whenever the upstream call succeeds, the reply has status 200
    and its body is exactly the upstream result, unmodified. -/
theorem upstream_success_forwarded_verbatim (body : Json)
    (create : CreateParams → UpstreamResult) (resp : Json)
    (h : create (buildCreateParams body) = .ok resp) :
    (handleAnthropicPost body create).1 = { status := 200, body := resp } := by
  simp [handleAnthropicPost, h]

/-- Concrete scenario for C3: an upstream success resolving to null is
    forwarded as a 200 reply whose body is null. -/
theorem upstream_success_forwarded_verbatim_witness :
    (handleAnthropicPost hiBody okCreate).1 = { status := 200, body := .null } :=
  upstream_success_forwarded_verbatim hiBody okCreate .null rfl

/-- Claim C4: for every inbound body, the `messages` value the single
    outbound call carries is exactly the `messages` property of the body,
    untouched — no validation, filtering or transformation. -/
theorem messages_forwarded_unmodified (body : Json)
    (create : CreateParams → UpstreamResult) :
    (handleAnthropicPost body create).2.map CreateParams.messages =
      [body.getField "messages"] := by
  rw [handle_calls]
  rfl

/-- Claim C5: when `model` is supplied as a non-empty string and
    `max_tokens` as a positive integer, the outbound call carries exactly
    the supplied values; no default is substituted. -/
theorem supplied_values_not_defaulted (body : Json)
    (create : CreateParams → UpstreamResult) (s : String) (n : Int)
    (hm : body.getField "model" = some (.str s)) (hs : s ≠ "")
    (ht : body.getField "max_tokens" = some (.num n)) (hn : 0 < n) :
    (handleAnthropicPost body create).2 =
      [{ model := .str s, max_tokens := .num n,
         messages := body.getField "messages" }] := by
  rw [handle_calls]
  unfold buildCreateParams
  rw [hm, ht]
  simp [jsOr, truthy, bne_iff_ne, hs, hn.ne']

/-- Concrete scenario for C5: the body with model "x", max_tokens 5 and an
    empty messages array yields exactly those three values. -/
theorem supplied_values_not_defaulted_witness :
    (handleAnthropicPost explicitBody okCreate).2 =
      [{ model := .str "x", max_tokens := .num 5, messages := some (.arr []) }] :=
  supplied_values_not_defaulted explicitBody okCreate "x" 5 rfl (by decide) rfl
    (by decide)

/-- Claim C6: every run of the handler issues exactly one outbound call —
    the call list is a singleton whatever the upstream outcome, so there is
    never a retry and never a skipped call. -/
theorem exactly_one_upstream_call (body : Json)
    (create : CreateParams → UpstreamResult) :
    (handleAnthropicPost body create).2 = [buildCreateParams body] :=
  handle_calls body create

/-- Counterexample to claim C7 as stated: with ANTHROPIC_API_KEY set to the
    empty string the client does not use the set value (the empty string is
    falsy, so `||` falls through): it uses the hardcoded fallback key. -/
theorem api_key_empty_env_counterexample :
    resolveApiKey (some "") ≠ "" ∧
    resolveApiKey (some "") = FALLBACK_API_KEY := by
  exact ⟨by decide, rfl⟩

/-- Claim C7 (amended): if ANTHROPIC_API_KEY is set to a non-empty value
    its value is used; if it is unset — or set to the empty string, which
    `||` treats as falsy — the hardcoded fallback key is used. -/
theorem api_key_resolution (env : Option String) :
    (∀ s, env = some s → s ≠ "" → resolveApiKey env = s) ∧
    (env = none ∨ env = some "" → resolveApiKey env = FALLBACK_API_KEY) := by
  constructor
  · rintro s rfl hs
    simp [resolveApiKey, hs]
  · rintro (rfl | rfl) <;> rfl

/-- C7 witness: a non-empty value is taken verbatim, and the unset case
    falls back to the hardcoded key. -/
theorem api_key_resolution_witness :
    resolveApiKey (some "secret") = "secret" ∧
    resolveApiKey none = FALLBACK_API_KEY :=
  ⟨(api_key_resolution (some "secret")).1 "secret" rfl (by decide),
   (api_key_resolution none).2 (Or.inl rfl)⟩

/-- Claim C8: the handler is deterministic and cross-request independent:
    its reply and call list are a pure function of the request body and of
    the upstream outcome at the issued call, so two runs agreeing on those
    agree on status and body; no other request's data and no mutable
    cross-request state enters the result. -/
theorem handler_deterministic (body : Json)
    (c₁ c₂ : CreateParams → UpstreamResult)
    (h : c₁ (buildCreateParams body) = c₂ (buildCreateParams body)) :
    handleAnthropicPost body c₁ = handleAnthropicPost body c₂ := by
  simp only [handleAnthropicPost]
  rw [h]

/-- C8 witness: two distinct upstream stubs that agree on the one call the
    relay issues produce identical replies. -/
theorem handler_deterministic_witness :
    handleAnthropicPost hiBody okCreate =
      handleAnthropicPost hiBody okUnlessZeroTokens :=
  handler_deterministic hiBody okCreate okUnlessZeroTokens rfl

/-- Claim C9: a supplied-but-falsy field is replaced by the default, because
    the defaulting is `||` truthiness, not a presence check: `max_tokens` 0
    goes out as 1200 and `model` "" goes out as
    "claude-sonnet-4-5-20250929". -/
theorem falsy_fields_replaced_by_defaults (body : Json)
    (create : CreateParams → UpstreamResult) :
    (body.getField "max_tokens" = some (.num 0) →
      (handleAnthropicPost body create).2.map CreateParams.max_tokens =
        [.num DEFAULT_MAX_TOKENS]) ∧
    (body.getField "model" = some (.str "") →
      (handleAnthropicPost body create).2.map CreateParams.model =
        [.str DEFAULT_MODEL]) := by
  constructor
  · intro h
    rw [handle_calls]
    simp [buildCreateParams, jsOr, truthy, h]
  · intro h
    rw [handle_calls]
    simp [buildCreateParams, jsOr, truthy, h]

/-- C9 witness: the body supplying model "" and max_tokens 0 still goes out
    with the two defaults. -/
theorem falsy_fields_replaced_by_defaults_witness :
    (handleAnthropicPost falsyBody okCreate).2.map CreateParams.max_tokens =
      [.num DEFAULT_MAX_TOKENS] ∧
    (handleAnthropicPost falsyBody okCreate).2.map CreateParams.model =
      [.str DEFAULT_MODEL] :=
  ⟨(falsy_fields_replaced_by_defaults falsyBody okCreate).1 rfl,
   (falsy_fields_replaced_by_defaults falsyBody okCreate).2 rfl⟩

/-- Claim C10: a body with no `messages` field is not rejected by the relay:
    the single outbound call is still issued, carrying an undefined
    `messages`, and if the upstream then raises, the caller sees only the
    generic 500 envelope with the upstream's message — not a relay-side
    validation error. -/
theorem missing_messages_not_rejected (body : Json)
    (create : CreateParams → UpstreamResult)
    (hmsg : body.getField "messages" = none) :
    (handleAnthropicPost body create).2.map CreateParams.messages = [none] ∧
    ∀ msg, create (buildCreateParams body) = .err msg →
      (handleAnthropicPost body create).1 =
        { status := 500, body := .obj [("error", .str msg)] } := by
  constructor
  · rw [handle_calls]
    simp [buildCreateParams, hmsg]
  · intro msg h
    simp [handleAnthropicPost, h]

/-- C10 witness: a body holding only a `model` field is forwarded with
    undefined messages, and the upstream's complaint surfaces as the 500
    envelope. -/
theorem missing_messages_not_rejected_witness :
    (handleAnthropicPost noMessagesBody missingMessagesCreate).2.map
        CreateParams.messages = [none] ∧
    (handleAnthropicPost noMessagesBody missingMessagesCreate).1 =
      { status := 500,
        body := .obj [("error", .str "messages: Field required")] } :=
  ⟨(missing_messages_not_rejected noMessagesBody missingMessagesCreate rfl).1,
   (missing_messages_not_rejected noMessagesBody missingMessagesCreate rfl).2
     "messages: Field required" rfl⟩

end TransferAssist
